import Mathlib

/-!
Verification of the sign-language-translator core pipeline.

Shallow embedding of the Python sources:
- `Text`     : src/app/inference/text_generator.py
- `PyData`   : CPython `@dataclass` field-default semantics for `TextState`
- `Gesture`  : src/app/inference/gesture_controls.py
- `Movement` : src/app/inference/movement_tracker.py
- `Degrade`  : adaptive quality controller of src/app/inference/enhancement_pipeline.py
- `Features` : src/ml/landmark_features.py

Python floats are modelled as exact numbers (`ℚ` where no square root occurs,
`ℝ` where `np.linalg.norm` / `np.std` need `Real.sqrt`).  Wall-clock times are
passed as explicit parameters.  Fallible code returns `Option`.
-/

namespace Text

/-- State of the text generator (`TextState` fields, with the types the code
actually stores: `confirmed_sentences` only ever holds a single string). -/
structure TextState where
  current_word : String := ""
  confirmed_words : List String := []
  confirmed_sentences : String := ""
  last_letter_time : ℚ := 0
  is_idle : Bool := false
deriving Repr, DecidableEq

/-- Models `TextGenerator.__init__`: idle timeout, fresh state, empty last confirmed
sentence. -/
structure TextGenerator where
  idle_timeout : ℚ := 3/2
  state : TextState := {}
  last_confirmed_sentence : String := ""
deriving Repr, DecidableEq

/-- Python's `str.isalpha() and len(s) == 1` restricted to the character set the
classifier emits (A-Z). -/
def isSingleAlpha (s : String) : Bool :=
  s.toList.all Char.isAlpha && s.length == 1

/-- Models `TextGenerator._confirm_word`: move a non-empty current word to
`confirmed_words`, stamping the time. -/
def confirm_word (g : TextGenerator) (now : ℚ) : TextGenerator :=
  if g.state.current_word ≠ "" then
    { g with state := { g.state with
        confirmed_words := g.state.confirmed_words ++ [g.state.current_word],
        current_word := "",
        last_letter_time := now } }
  else g

/-- Models `TextGenerator._delete_last_letter`. -/
def delete_last_letter (g : TextGenerator) (now : ℚ) : TextGenerator :=
  if g.state.current_word ≠ "" then
    { g with state := { g.state with
        current_word := g.state.current_word.dropRight 1,
        last_letter_time := now } }
  else g

/-- Models `TextGenerator.add_letter`, with `time.time()` passed as `now`. -/
def add_letter (g : TextGenerator) (letter : String) (now : ℚ) : TextGenerator :=
  if letter = "space" then confirm_word g now
  else if letter = "del" then delete_last_letter g now
  else if letter = "nothing" then
    if g.state.current_word ≠ "" ∨ g.state.confirmed_words ≠ [] then
      if now - g.state.last_letter_time ≥ g.idle_timeout then
        { g with state := { g.state with is_idle := true } }
      else g
    else g
  else if isSingleAlpha letter then
    { g with state := { g.state with
        current_word := g.state.current_word ++ letter,
        last_letter_time := now,
        is_idle := false } }
  else g

/-- Models `TextGenerator._confirm_sentence`: flush the pending word, return `none` on
empty word list or on a duplicate of the last emitted sentence, otherwise emit
the space-joined sentence and reset the state. -/
def confirm_sentence (g : TextGenerator) (now : ℚ) : Option String × TextGenerator :=
  let g := if g.state.current_word ≠ "" then confirm_word g now else g
  if g.state.confirmed_words = [] then (none, g)
  else
    let sentence := String.intercalate " " g.state.confirmed_words
    if sentence = g.last_confirmed_sentence then (none, g)
    else
      (some sentence,
       { g with
         last_confirmed_sentence := sentence,
         state := { g.state with
           confirmed_sentences := sentence,
           confirmed_words := [],
           current_word := "",
           is_idle := false } })

/-- Models `TextGenerator.confirm_sentence_by_fist` (lock elided; single-threaded
embedding). -/
def confirm_sentence_by_fist (g : TextGenerator) (now : ℚ) :
    Option String × TextGenerator :=
  confirm_sentence g now

/-- Feed a list of symbols through `add_letter` at a fixed time. -/
def addLetters (g : TextGenerator) (letters : List String) (now : ℚ) : TextGenerator :=
  letters.foldl (fun acc l => add_letter acc l now) g

/-- The symbol sequence of the text-assembly scenario. -/
def scenarioSymbols : List String :=
  ["H", "I", "space", "T", "H", "E", "R", "E"]

end Text

namespace PyData

/-- A Python class-level field default, as written in a `@dataclass` body. -/
inductive PyDefault where
  | noDefault
  | strLit (s : String)
  | floatLit (q : ℚ)
  | boolLit (b : Bool)
  | listLit
deriving Repr, DecidableEq

/-- CPython's `dataclasses._process_class` rejects a class-level default whose
type is a mutable builtin container (`list`, `dict`, `set`); such a field makes
the `@dataclass` decorator raise
`ValueError: mutable default ... is not allowed: use default_factory`
when the class statement is executed. -/
def mutableDefault : PyDefault → Bool
  | .listLit => true
  | _ => false

/-- Whether evaluating `@dataclass` on a class with the given field defaults
raises `ValueError` (true iff some field has a mutable container default). -/
def dataclassRaisesValueError (fields : List (String × PyDefault)) : Bool :=
  fields.any fun f => mutableDefault f.2

/-- The field declarations of `TextState` in text_generator.py lines 22-30:
`confirmed_words: List[str] = []` carries a mutable `list` default. -/
def textStateFields : List (String × PyDefault) :=
  [("current_word", .strLit ""),
   ("confirmed_words", .listLit),
   ("confirmed_sentences", .strLit ""),
   ("last_letter_time", .floatLit 0),
   ("is_idle", .boolLit false)]

end PyData

namespace Degrade

/-- Enhancement toggles and adaptive-degradation state of `EnhancementPipeline`
(the fields read and written by `_check_adaptive_quality_reduction`,
`_apply_quality_degradation` and `_restore_quality`). -/
structure PipelineState where
  lighting_enabled : Bool := true
  face_focus_enabled : Bool := false
  background_blur_enabled : Bool := false
  cpu_samples : List ℚ := []
  fps_samples : List ℚ := []
  degradation_active : Bool := false
  degradation_level : ℕ := 0
deriving Repr, DecidableEq

/-- The `while len > 10: pop(0)` trimming of a sample buffer. -/
def trimTo (cap : ℕ) (l : List ℚ) : List ℚ :=
  l.drop (l.length - cap)

/-- Models `EnhancementPipeline._apply_quality_degradation`: no-op while active,
otherwise level 1 disables background blur; with blur already disabled level 2
disables face focus; with both disabled level 3 disables lighting. -/
def apply_quality_degradation (s : PipelineState) : PipelineState :=
  if s.degradation_active then s
  else
    let s2 := { s with degradation_active := true, degradation_level := 1 }
    if s2.background_blur_enabled then { s2 with background_blur_enabled := false }
    else if s2.face_focus_enabled then
      { s2 with face_focus_enabled := false, degradation_level := 2 }
    else if s2.lighting_enabled then
      { s2 with lighting_enabled := false, degradation_level := 3 }
    else s2

/-- Models `EnhancementPipeline._restore_quality`: re-enable in reverse priority order
up to the reached level, deactivate, and clear both sample buffers. -/
def restore_quality (s : PipelineState) : PipelineState :=
  if !s.degradation_active then s
  else
    let s1 := if 3 ≤ s.degradation_level then { s with lighting_enabled := true } else s
    let s2 := if 2 ≤ s1.degradation_level then { s1 with face_focus_enabled := true } else s1
    let s3 := if 1 ≤ s2.degradation_level then { s2 with background_blur_enabled := true } else s2
    { s3 with
      degradation_active := false
      degradation_level := 0
      cpu_samples := []
      fps_samples := [] }

/-- One due tick of `EnhancementPipeline._check_adaptive_quality_reduction`
(the 1-second interval having elapsed), sampling the given CPU percentage and
FPS reading: append, trim to 10, require 3 samples, compare the means against
the 80% CPU and 15 FPS thresholds, then apply or restore. -/
def check_adaptive_quality_reduction (s : PipelineState) (cpu fps : ℚ) :
    PipelineState :=
  let cpu2 := trimTo 10 (s.cpu_samples ++ [cpu])
  let fps2 := trimTo 10 (s.fps_samples ++ [fps])
  let s2 := { s with cpu_samples := cpu2, fps_samples := fps2 }
  if cpu2.length < 3 ∨ fps2.length < 3 then s2
  else
    let avg_cpu := cpu2.sum / (cpu2.length : ℚ)
    let avg_fps := fps2.sum / (fps2.length : ℚ)
    let should_degrade := 80 < avg_cpu ∨ (0 < avg_fps ∧ avg_fps < 15)
    if should_degrade ∧ s2.degradation_active = false then
      apply_quality_degradation s2
    else if ¬ should_degrade ∧ s2.degradation_active = true then
      restore_quality s2
    else s2

/-- Start state of the degradation scenario: all three optional stages enabled,
no samples, no degradation. -/
def allEnabled : PipelineState :=
  { lighting_enabled := true, face_focus_enabled := true,
    background_blur_enabled := true }

/-- Run `n` due controller ticks from `allEnabled`, each observing a sustained
high-CPU condition (CPU 90%, FPS reading 0 so the FPS branch is moot). -/
def highCpuRun : ℕ → PipelineState
  | 0 => allEnabled
  | n + 1 => check_adaptive_quality_reduction (highCpuRun n) 90 0

/-- Invariant reached after the first sustained high-CPU trigger: blur
disabled at level 1, the other stages untouched, degradation active, and both
buffers full of the sustained readings. -/
def SustainedInv (s : PipelineState) : Prop :=
  s.background_blur_enabled = false ∧ s.face_focus_enabled = true ∧
    s.lighting_enabled = true ∧ s.degradation_level = 1 ∧
    s.degradation_active = true ∧
    (∀ x ∈ s.cpu_samples, x = (90 : ℚ)) ∧ 3 ≤ s.cpu_samples.length ∧
    (∀ x ∈ s.fps_samples, x = (0 : ℚ)) ∧ 3 ≤ s.fps_samples.length

end Degrade

/-- Sum of a constant list. -/
theorem Degrade.sum_of_const (l : List ℚ) (c : ℚ) (h : ∀ x ∈ l, x = c) :
    l.sum = c * l.length := by
  induction l with
  | nil => simp
  | cons a t ih =>
    have ha : a = c := h a (by simp)
    have ht : t.sum = c * t.length := ih fun x hx => h x (by simp [hx])
    simp [ha, ht]
    ring

/-- Mean of a nonempty constant list. -/
theorem Degrade.avg_of_const (l : List ℚ) (c : ℚ) (h : ∀ x ∈ l, x = c)
    (hl : l.length ≠ 0) : l.sum / (l.length : ℚ) = c := by
  rw [Degrade.sum_of_const l c h]
  exact mul_div_cancel_right₀ c (Nat.cast_ne_zero.mpr hl)

/-- While degradation is active and every due tick still reports the sustained
high-CPU condition, the controller changes nothing but the sample buffers. -/
theorem Degrade.sustained_step (s : Degrade.PipelineState)
    (h : Degrade.SustainedInv s) :
    Degrade.SustainedInv (Degrade.check_adaptive_quality_reduction s 90 0) := by
  obtain ⟨hb, hf, hl, hlv, ha, hc90, hclen, hf0, hflen⟩ := h
  have hcpu2 : ∀ x ∈ Degrade.trimTo 10 (s.cpu_samples ++ [(90:ℚ)]), x = (90:ℚ) := by
    intro x hx
    have hx' : x ∈ s.cpu_samples ++ [(90:ℚ)] := List.drop_subset _ _ hx
    rcases List.mem_append.mp hx' with h1 | h1
    · exact hc90 x h1
    · simpa using h1
  have hfps2 : ∀ x ∈ Degrade.trimTo 10 (s.fps_samples ++ [(0:ℚ)]), x = (0:ℚ) := by
    intro x hx
    have hx' : x ∈ s.fps_samples ++ [(0:ℚ)] := List.drop_subset _ _ hx
    rcases List.mem_append.mp hx' with h1 | h1
    · exact hf0 x h1
    · simpa using h1
  have hclen2 : 3 ≤ (Degrade.trimTo 10 (s.cpu_samples ++ [(90:ℚ)])).length := by
    simp only [Degrade.trimTo, List.length_drop, List.length_append]
    omega
  have hflen2 : 3 ≤ (Degrade.trimTo 10 (s.fps_samples ++ [(0:ℚ)])).length := by
    simp only [Degrade.trimTo, List.length_drop, List.length_append]
    omega
  have havg : 80 < (Degrade.trimTo 10 (s.cpu_samples ++ [(90:ℚ)])).sum /
      ((Degrade.trimTo 10 (s.cpu_samples ++ [(90:ℚ)])).length : ℚ) := by
    rw [Degrade.avg_of_const _ 90 hcpu2 (by omega)]
    norm_num
  simp only [Degrade.check_adaptive_quality_reduction]
  rw [if_neg (by push_neg; omega)]
  rw [if_neg (by simp [ha, havg])]
  rw [if_neg (by simp [havg])]
  exact ⟨hb, hf, hl, hlv, ha, hcpu2, hclen2, hfps2, hflen2⟩

/-- After three sustained high-CPU ticks the controller has disabled exactly
background blur at level 1. -/
theorem Degrade.sustained_run3 : Degrade.SustainedInv (Degrade.highCpuRun 3) := by
  norm_num [Degrade.highCpuRun, Degrade.check_adaptive_quality_reduction,
    Degrade.trimTo, Degrade.apply_quality_degradation, Degrade.allEnabled,
    Degrade.SustainedInv]

/-- The sustained invariant persists through every further sustained tick. -/
theorem Degrade.sustained_all (k : ℕ) :
    Degrade.SustainedInv (Degrade.highCpuRun (3 + k)) := by
  induction k with
  | zero => exact Degrade.sustained_run3
  | succ n ih => exact Degrade.sustained_step _ ih

/-- C1 counterexample: from all three stages enabled, the first sustained
high-CPU trigger (tick 3) disables background blur, but the continuing
sustained triggers (ticks 4-6, each with ≥ 3 samples of mean 90% > 80%) never
disable face focus — `_check_adaptive_quality_reduction` only calls
`_apply_quality_degradation` while degradation is inactive, so the claimed
escalation to face focus does not happen. -/
theorem C1_counterexample :
    (Degrade.highCpuRun 3).background_blur_enabled = false ∧
    (Degrade.highCpuRun 3).face_focus_enabled = true ∧
    (Degrade.highCpuRun 6).background_blur_enabled = false ∧
    (Degrade.highCpuRun 6).face_focus_enabled = true := by
  have h3 := Degrade.sustained_run3
  have h6 := Degrade.sustained_all 3
  exact ⟨h3.1, h3.2.1, h6.1, h6.2.1⟩

/-- C1 amended: the first sustained trigger disables exactly background blur
(level 1, face focus and lighting untouched); every further sustained trigger
while degradation is active is a no-op on the stage toggles (face focus is
never disabled, blur never re-disabled); face focus is disabled (level 2) only
when `_apply_quality_degradation` runs with degradation inactive and background
blur already disabled. -/
theorem C1_degradation_priority_amended :
    ((Degrade.highCpuRun 3).background_blur_enabled = false ∧
     (Degrade.highCpuRun 3).face_focus_enabled = true ∧
     (Degrade.highCpuRun 3).lighting_enabled = true ∧
     (Degrade.highCpuRun 3).degradation_level = 1) ∧
    (∀ k : ℕ,
      (Degrade.highCpuRun (3 + k)).background_blur_enabled = false ∧
      (Degrade.highCpuRun (3 + k)).face_focus_enabled = true ∧
      (Degrade.highCpuRun (3 + k)).lighting_enabled = true ∧
      (Degrade.highCpuRun (3 + k)).degradation_level = 1) ∧
    (Degrade.apply_quality_degradation
        { lighting_enabled := true, face_focus_enabled := true,
          background_blur_enabled := false } =
      { lighting_enabled := true, face_focus_enabled := false,
        background_blur_enabled := false, degradation_active := true,
        degradation_level := 2 }) := by
  refine ⟨?_, ?_, ?_⟩
  · have h3 := Degrade.sustained_run3
    exact ⟨h3.1, h3.2.1, h3.2.2.1, h3.2.2.2.1⟩
  · intro k
    have hk := Degrade.sustained_all k
    exact ⟨hk.1, hk.2.1, hk.2.2.1, hk.2.2.2.1⟩
  · simp [Degrade.apply_quality_degradation]


namespace Gesture

/-- A MediaPipe landmark (x, y, z), exact-arithmetic model of the floats. -/
abbrev Landmark : Type := ℚ × ℚ × ℚ

/-- Landmark list indexing, as used after the length-21 guard. -/
def pt (l : List Landmark) (i : ℕ) : Landmark :=
  l.getD i (0, 0, 0)

/-- x coordinate. -/
def lx (p : Landmark) : ℚ := p.1

/-- y coordinate. -/
def ly (p : Landmark) : ℚ := p.2.1

/-- Models `GestureEvent` for the current frame. -/
structure GestureEvent where
  gesture : String := "none"
  confidence : ℚ := 0
  confirmed : Bool := false
  action : String := "none"
deriving Repr, DecidableEq

/-- Models `GestureController` configuration plus mutable debounce state. -/
structure GestureController where
  hold_frames : ℕ := 6
  cooldown_frames : ℕ := 20
  min_confidence : ℚ := 78/100
  active_candidate : String := "none"
  candidate_frames : ℕ := 0
  cooldown_remaining : ℕ := 0
deriving Repr, DecidableEq

/-- Models `is_finger_extended`: tip above PIP in normalized y by more than the margin
(default 0.025 at every call site). -/
def is_finger_extended (l : List Landmark) (tip pip : ℕ) (margin : ℚ) : Bool :=
  decide (ly (pt l pip) - ly (pt l tip) > margin)

/-- Models `is_thumb_extended`: handedness-aware horizontal comparison with unsigned
fallback (margin default 0.02 at every call site). -/
def is_thumb_extended (l : List Landmark) (handedness : Option String)
    (margin : ℚ) : Bool :=
  if handedness = some "Right" then decide (lx (pt l 3) - lx (pt l 4) > margin)
  else if handedness = some "Left" then decide (lx (pt l 4) - lx (pt l 3) > margin)
  else decide (|lx (pt l 4) - lx (pt l 3)| > margin)

/-- The per-finger extended/curled dictionary. -/
structure FingerState where
  thumb : Bool
  index : Bool
  middle : Bool
  ring : Bool
  pinky : Bool
deriving Repr, DecidableEq

/-- Models `get_finger_state` with the MediaPipe tip/PIP indices of the source. -/
def get_finger_state (l : List Landmark) (handedness : Option String) : FingerState :=
  { thumb := is_thumb_extended l handedness (2/100)
    index := is_finger_extended l 8 6 (25/1000)
    middle := is_finger_extended l 12 10 (25/1000)
    ring := is_finger_extended l 16 14 (25/1000)
    pinky := is_finger_extended l 20 18 (25/1000) }

/-- Number of extended fingers (`sum(1 for value in state.values() if value)`). -/
def extendedCount (s : FingerState) : ℕ :=
  (if s.thumb then 1 else 0) + (if s.index then 1 else 0) +
    (if s.middle then 1 else 0) + (if s.ring then 1 else 0) +
    (if s.pinky then 1 else 0)

/-- Models `is_open_palm`: at least four fingers extended, including index and middle. -/
def is_open_palm (s : FingerState) : Bool :=
  decide (extendedCount s ≥ 4) && s.index && s.middle

/-- Models `is_fist`: index, middle, ring and pinky all curled. -/
def is_fist (s : FingerState) : Bool :=
  !s.index && !s.middle && !s.ring && !s.pinky

/-- Models `is_two_fingers`: index and middle extended, ring and pinky curled. -/
def is_two_fingers (s : FingerState) : Bool :=
  s.index && s.middle && !s.ring && !s.pinky

/-- Models `detect_control_gesture`: raw gesture name with its fixed confidence. -/
def detect_control_gesture (l : List Landmark) (handedness : Option String) :
    String × ℚ :=
  let s := get_finger_state l handedness
  if is_open_palm s then ("open_palm", 92/100)
  else if is_fist s then ("fist", 9/10)
  else if is_two_fingers s then ("two_fingers", 88/100)
  else ("none", 0)

/-- Models `gesture_to_action` mapping. -/
def gesture_to_action (gesture : String) : String :=
  if gesture = "open_palm" then "toggle_pause"
  else if gesture = "fist" then "confirm_sentence"
  else if gesture = "two_fingers" then "undo_last_word"
  else "none"

/-- Models `GestureController._reset_candidate`. -/
def reset_candidate (c : GestureController) : GestureController :=
  { c with active_candidate := "none", candidate_frames := 0 }

/-- Models `GestureController.update`: cooldown decrement, absence reset, motion-state
and confidence gating, debounce counting, hold/cooldown confirmation. -/
def update (c : GestureController) (landmarks : Option (List Landmark))
    (movement_state : String) (handedness : Option String) :
    GestureEvent × GestureController :=
  let c := if c.cooldown_remaining > 0 then
      { c with cooldown_remaining := c.cooldown_remaining - 1 } else c
  match landmarks with
  | none => ({}, reset_candidate c)
  | some l =>
    if l.length < 21 then ({}, reset_candidate c)
    else
      let rc0 := detect_control_gesture l handedness
      let rc1 := if movement_state ≠ "stable" ∧ movement_state ≠ "idle"
        then (("none" : String), (0 : ℚ)) else rc0
      let rc := if rc1.2 < c.min_confidence then (("none" : String), (0 : ℚ)) else rc1
      if rc.1 = "none" then ({}, reset_candidate c)
      else
        let c := if rc.1 = c.active_candidate then
            { c with candidate_frames := c.candidate_frames + 1 }
          else { c with active_candidate := rc.1, candidate_frames := 1 }
        if c.candidate_frames ≥ c.hold_frames ∧ c.cooldown_remaining = 0 then
          ({ gesture := rc.1, confidence := rc.2, confirmed := true,
             action := gesture_to_action rc.1 },
           reset_candidate { c with cooldown_remaining := c.cooldown_frames })
        else
          ({ gesture := rc.1, confidence := rc.2 }, c)

/-- Feed the same landmarks/motion-state input for `n` consecutive frames,
collecting the emitted events in order. -/
def feedPoseN (l : List Landmark) (ms : String) :
    ℕ → GestureController → List GestureEvent
  | 0, _ => []
  | n + 1, c =>
    let ec := update c (some l) ms none
    ec.1 :: feedPoseN l ms n ec.2

/-- The controller state after `n` frames of the same input. -/
def feedPoseState (l : List Landmark) (ms : String) :
    ℕ → GestureController → GestureController
  | 0, c => c
  | n + 1, c => feedPoseState l ms n (update c (some l) ms none).2

/-- A concrete open-palm pose: index, middle, ring and pinky tips well above
their PIP joints (smaller y is higher on screen), thumb neutral. -/
def openPalmPose : List Landmark :=
  [(0, 1, 0), (0, 1, 0), (0, 1, 0), (0, 1, 0), (0, 1, 0),
   (0, 1, 0), (0, 1, 0), (0, 1, 0), (0, 0, 0), (0, 1, 0),
   (0, 1, 0), (0, 1, 0), (0, 0, 0), (0, 1, 0), (0, 1, 0),
   (0, 1, 0), (0, 0, 0), (0, 1, 0), (0, 1, 0), (0, 1, 0),
   (0, 0, 0)]

end Gesture

namespace Movement

/-- A landmark point (x, y, z), float arithmetic modelled over `ℝ` because the
per-frame displacement uses a Euclidean norm. -/
abbrev Pt : Type := ℝ × ℝ × ℝ

/-- Models `MovementConfig` with the source defaults. -/
structure MovementConfig where
  idle_threshold : ℝ := 4/1000
  stable_threshold : ℝ := 12/1000
  fast_threshold : ℝ := 5/100
  stable_required_frames : ℕ := 7
  idle_required_frames : ℕ := 14
  smoothing_alpha : ℝ := 45/100
  history_size : ℕ := 30

/-- Models `MovementSnapshot`. -/
structure MovementSnapshot where
  state : String
  movement : ℝ
  average_movement : ℝ
  stable_frames : ℕ
  has_hand : Bool

/-- Models `MovementTracker` constructor state (`__init__` with the default config). -/
structure MovementTracker where
  config : MovementConfig := {}
  history : List ℝ := []
  prev_landmarks : Option (List Pt) := none
  smoothed_movement : ℝ := 0
  stable_frames : ℕ := 0
  last_state : String := "no_hand"

/-- Append to a `deque(maxlen=n)`: evict from the left beyond capacity. -/
def pushBounded (h : List ℝ) (maxlen : ℕ) (v : ℝ) : List ℝ :=
  let h2 := h ++ [v]
  if maxlen < h2.length then h2.drop (h2.length - maxlen) else h2

/-- Models `MovementTracker.average_movement` over the last `window` history entries
(window default 10 at every call site). -/
noncomputable def averageOf (h : List ℝ) (window : ℕ) : ℝ :=
  if h.isEmpty then 0
  else
    let values := h.drop (h.length - window)
    values.sum / (values.length : ℝ)

/-- Planar (x/y) Euclidean distance between corresponding landmarks, the
per-row `np.linalg.norm(deltas, axis=1)`. -/
noncomputable def planarDist (a b : Pt) : ℝ :=
  Real.sqrt ((b.1 - a.1) ^ 2 + (b.2.1 - a.2.1) ^ 2)

/-- Mean planar displacement between two equally-shaped landmark arrays
(`np.linalg.norm(deltas, axis=1).mean()`). -/
noncomputable def meanPlanarDisp (p q : List Pt) : ℝ :=
  (((p.zip q).map fun pr => planarDist pr.1 pr.2).sum) / (((p.zip q).length : ℝ))

/-- The instantaneous movement of `update`: zero without a shape-matching
previous frame, otherwise the mean planar displacement. -/
noncomputable def instantMovement (prev : Option (List Pt)) (current : List Pt) : ℝ :=
  match prev with
  | some p => if p.length = current.length then meanPlanarDisp p current else 0
  | none => 0

/-- Models `MovementTracker._classify_state`, evaluated in the source's priority
order. -/
noncomputable def classify_state (cfg : MovementConfig) (movement : ℝ)
    (stable_frames : ℕ) : String :=
  if cfg.fast_threshold ≤ movement then "moving_fast"
  else if movement ≤ cfg.idle_threshold ∧ cfg.idle_required_frames ≤ stable_frames then
    "idle"
  else if movement ≤ cfg.stable_threshold ∧ cfg.stable_required_frames ≤ stable_frames then
    "stable"
  else "moving"

/-- The absent-input branch of `update`: drop the previous frame, reset the
stable counter, halve the smoothed movement, record it, emit `no_hand`. -/
noncomputable def absentStep (t : MovementTracker) : MovementSnapshot × MovementTracker :=
  let sm := t.smoothed_movement * (1/2)
  let hist := pushBounded t.history t.config.history_size sm
  let snap : MovementSnapshot :=
    { state := "no_hand", movement := sm, average_movement := averageOf hist 10,
      stable_frames := 0, has_hand := false }
  (snap,
   { t with
     prev_landmarks := none
     stable_frames := 0
     smoothed_movement := sm
     history := hist
     last_state := "no_hand" })

/-- The present-input branch of `update`: exponential smoothing of the mean
displacement, stable-counter hysteresis, state classification. -/
noncomputable def presentStep (t : MovementTracker) (l : List Pt) :
    MovementSnapshot × MovementTracker :=
  let instant := instantMovement t.prev_landmarks l
  let alpha := t.config.smoothing_alpha
  let sm := alpha * instant + (1 - alpha) * t.smoothed_movement
  let hist := pushBounded t.history t.config.history_size sm
  let stable := if sm ≤ t.config.stable_threshold then t.stable_frames + 1 else 0
  let st := classify_state t.config sm stable
  let snap : MovementSnapshot :=
    { state := st, movement := sm, average_movement := averageOf hist 10,
      stable_frames := stable, has_hand := true }
  (snap,
   { t with
     prev_landmarks := some l
     smoothed_movement := sm
     history := hist
     stable_frames := stable
     last_state := st })

/-- Models `MovementTracker.update`: absent input is `None` or fewer than 21 points. -/
noncomputable def update (t : MovementTracker) :
    Option (List Pt) → MovementSnapshot × MovementTracker
  | none => absentStep t
  | some l => if l.length < 21 then absentStep t else presentStep t l

/-- The code's absence test (`landmarks is None or len(landmarks) < 21`). -/
def absentInput : Option (List Pt) → Prop
  | none => True
  | some l => l.length < 21

/-- Feed the constant frame `f` to a fresh default tracker `k + 1` times and
return the last snapshot with the tracker. -/
noncomputable def runConst (f : List Pt) : ℕ → MovementSnapshot × MovementTracker
  | 0 => update {} (some f)
  | k + 1 => update (runConst f k).2 (some f)

end Movement

namespace Features

/-- A landmark point (x, y, z) over `ℝ` (the norms need `Real.sqrt`). -/
abbrev Pt : Type := ℝ × ℝ × ℝ

/-- Models `EPSILON = 1e-6`. -/
noncomputable def EPSILON : ℝ := 1/1000000

/-- Componentwise subtraction. -/
noncomputable def psub (a b : Pt) : Pt :=
  (a.1 - b.1, a.2.1 - b.2.1, a.2.2 - b.2.2)

/-- Componentwise addition. -/
noncomputable def padd (a b : Pt) : Pt :=
  (a.1 + b.1, a.2.1 + b.2.1, a.2.2 + b.2.2)

/-- Scalar multiple of a point. -/
noncomputable def psmul (c : ℝ) (a : Pt) : Pt :=
  (c * a.1, c * a.2.1, c * a.2.2)

/-- Division of every coordinate by a scalar. -/
noncomputable def pdiv (a : Pt) (s : ℝ) : Pt :=
  (a.1 / s, a.2.1 / s, a.2.2 / s)

/-- The 3-D Euclidean norm (`np.linalg.norm` of one row). -/
noncomputable def norm3 (a : Pt) : ℝ :=
  Real.sqrt (a.1 ^ 2 + a.2.1 ^ 2 + a.2.2 ^ 2)

/-- Models `np.clip(x, -3.0, 3.0)` on one coordinate. -/
noncomputable def clipR (x : ℝ) : ℝ := min 3 (max (-3) x)

/-- Models `np.clip` on a point. -/
noncomputable def clip3 (p : Pt) : Pt := (clipR p.1, clipR p.2.1, clipR p.2.2)

/-- Models `to_numpy_sequence`: a raw nested list becomes a `[T, 21, 3]` tensor only
when it is a nonempty list of 21-point frames; anything else makes
`np.asarray`/the shape check raise `ValueError`. -/
def to_numpy_sequence (seq : List (List Pt)) : Option (List (List Pt)) :=
  match seq with
  | [] => none
  | _ =>
    if ∀ fr ∈ seq, fr.length = 21 then some seq else none

/-- Center a frame on its wrist (index 0): `array - array[:, 0:1, :]`. -/
noncomputable def centerFrame (fr : List Pt) : List Pt :=
  fr.map fun p => psub p (fr.getD 0 (0, 0, 0))

/-- Palm width of a (centered) frame: distance between the index-base (5) and
pinky-base (17) rows. -/
noncomputable def palmScaleFrame (fr : List Pt) : ℝ :=
  norm3 (psub (fr.getD 5 (0, 0, 0)) (fr.getD 17 (0, 0, 0)))

/-- Models `np.median` of a list (sorted middle element, or mean of the two middle
ones). -/
noncomputable def median (l : List ℝ) : ℝ :=
  let s := l.mergeSort fun a b => a ≤ b
  let n := s.length
  if n = 0 then 0
  else if n % 2 = 1 then s.getD (n / 2) 0
  else (s.getD (n / 2 - 1) 0 + s.getD (n / 2) 0) / 2

/-- The per-frame palm scales of a raw sequence (computed on the centered
frames, exactly as `normalize_sequence` does). -/
noncomputable def palmScales (seq : List (List Pt)) : List ℝ :=
  (seq.map centerFrame).map palmScaleFrame

open Classical in
/-- The body of `normalize_sequence` after shape validation: wrist-center every
frame, divide by the per-frame palm scale — all-ones when every scale collapses
below `EPSILON`, otherwise falling back to the median of the healthy scales for
collapsed frames — then clip to `[-3, 3]`. -/
noncomputable def normalizeCore (seq : List (List Pt)) : List (List Pt) :=
  let centered := seq.map centerFrame
  let scales := centered.map palmScaleFrame
  let scales2 :=
    if ∀ x ∈ scales, x < EPSILON then scales.map fun _ => 1
    else
      let reference := if ∃ x ∈ scales, EPSILON < x
        then median (scales.filter fun x => EPSILON < x) else 1
      scales.map fun s => if EPSILON < s then s else reference
  (centered.zip scales2).map fun pr => pr.1.map fun p => clip3 (pdiv p pr.2)

/-- Models `normalize_sequence`: validation then normalization. -/
noncomputable def normalize_sequence (seq : List (List Pt)) :
    Option (List (List Pt)) :=
  (to_numpy_sequence seq).map normalizeCore

/-- Models `np.linspace(0.0, 1.0, num)`. -/
noncomputable def linspace01 (num : ℕ) : List ℝ :=
  (List.range num).map fun i =>
    if num = 1 then 0 else (i : ℝ) / ((num : ℝ) - 1)

/-- Linear interpolation between two frames at parameter `t`. -/
noncomputable def frameAffine (a b : List Pt) (t : ℝ) : List Pt :=
  (a.zip b).map fun pr => padd pr.1 (psmul t (psub pr.2 pr.1))

open Classical in
/-- Models `np.interp` applied rowwise over (source step, frame) knots: clamp before
the first knot, interpolate linearly between bracketing knots. -/
noncomputable def interpFrames : List (ℝ × List Pt) → ℝ → List Pt
  | [], _ => []
  | [(_, f)], _ => f
  | (x1, f1) :: (x2, f2) :: rest, x =>
    if x ≤ x1 then f1
    else if x ≤ x2 then frameAffine f1 f2 ((x - x1) / (x2 - x1))
    else interpFrames ((x2, f2) :: rest) x

/-- Models `resample_sequence`: reject `target_length ≤ 1` (the code raises
`ValueError`), return the sequence unchanged when already at the target
length, otherwise interpolate each trajectory onto the target grid. -/
noncomputable def resample_sequence (seq : List (List Pt)) (target : ℕ) :
    Option (List (List Pt)) :=
  if target ≤ 1 then none
  else if seq.length = target then some seq
  else
    let src := linspace01 seq.length
    let dst := linspace01 target
    some (dst.map (interpFrames (src.zip seq)))

/-- Frame subtraction (rowwise). -/
noncomputable def frameSub (a b : List Pt) : List Pt :=
  (a.zip b).map fun pr => psub pr.1 pr.2

/-- Models `np.diff(sampled, axis=0, prepend=sampled[0:1])`: first row zero, then
successive differences. -/
noncomputable def velocitySeq (s : List (List Pt)) : List (List Pt) :=
  match s with
  | [] => []
  | f :: _ => (s.zip (f :: s)).map fun pr => frameSub pr.1 pr.2

/-- Population standard deviation of a list (`np.std`). -/
noncomputable def stdList (l : List ℝ) : ℝ :=
  Real.sqrt (((l.map fun x => (x - l.sum / (l.length : ℝ)) ^ 2).sum) / (l.length : ℝ))

/-- Per-landmark, per-coordinate standard deviation across the window
(`np.std(sampled, axis=0)` for the 21 landmark rows). -/
noncomputable def stdFrame (s : List (List Pt)) : List Pt :=
  (List.range 21).map fun i =>
    (stdList (s.map fun fr => (fr.getD i (0, 0, 0)).1),
     stdList (s.map fun fr => (fr.getD i (0, 0, 0)).2.1),
     stdList (s.map fun fr => (fr.getD i (0, 0, 0)).2.2))

/-- Row-major flattening of one frame. -/
noncomputable def flattenFrame (fr : List Pt) : List ℝ :=
  fr.flatMap fun p => [p.1, p.2.1, p.2.2]

/-- Row-major flattening of a whole sequence (`reshape(-1)`). -/
noncomputable def flattenSeq (s : List (List Pt)) : List ℝ :=
  s.flatMap flattenFrame

/-- Models `sequence_to_feature_vector`: normalize, resample, then concatenate the
position stream, the velocity stream and the per-landmark trajectory spread. -/
noncomputable def sequence_to_feature_vector (seq : List (List Pt))
    (target : ℕ) : Option (List ℝ) :=
  match to_numpy_sequence seq with
  | none => none
  | some arr =>
    let normalized := normalizeCore arr
    match resample_sequence normalized target with
    | none => none
    | some sampled =>
      some (flattenSeq sampled ++ flattenSeq (velocitySeq sampled) ++
        flattenFrame (stdFrame sampled))

/-- Scale every input coordinate of a window by `c`. -/
noncomputable def scaleSeq (c : ℝ) (seq : List (List Pt)) : List (List Pt) :=
  seq.map fun fr => fr.map (psmul c)

end Features

/-- Scaling commutes with pointwise subtraction. -/
theorem Features.psub_psmul (c : ℝ) (p q : Features.Pt) :
    Features.psub (Features.psmul c p) (Features.psmul c q) =
      Features.psmul c (Features.psub p q) := by
  simp [Features.psub, Features.psmul, mul_sub]

/-- Scaling fixes the origin. -/
theorem Features.psmul_origin (c : ℝ) :
    Features.psmul c (0 : Features.Pt) = 0 := by
  simp [Features.psmul]

/-- Indexing into a scaled frame with the origin default. -/
theorem Features.getD_map_psmul (fr : List Features.Pt) (c : ℝ) (i : ℕ) :
    (fr.map (Features.psmul c)).getD i (0, 0, 0) =
      Features.psmul c (fr.getD i (0, 0, 0)) := by
  induction fr generalizing i with
  | nil => simp [Features.psmul_origin]
  | cons a t ih =>
    cases i with
    | zero => simp
    | succ j => simpa using ih j

/-- Wrist-centering commutes with scaling. -/
theorem Features.centerFrame_smul (c : ℝ) (fr : List Features.Pt) :
    Features.centerFrame (fr.map (Features.psmul c)) =
      (Features.centerFrame fr).map (Features.psmul c) := by
  unfold Features.centerFrame
  rw [Features.getD_map_psmul]
  simp [List.map_map, Function.comp_def, Features.psub_psmul]

/-- The 3-D norm scales by a nonnegative factor. -/
theorem Features.norm3_psmul (c : ℝ) (hc : 0 ≤ c) (p : Features.Pt) :
    Features.norm3 (Features.psmul c p) = c * Features.norm3 p := by
  unfold Features.norm3 Features.psmul
  have h : (c * p.1) ^ 2 + (c * p.2.1) ^ 2 + (c * p.2.2) ^ 2 =
      c ^ 2 * (p.1 ^ 2 + p.2.1 ^ 2 + p.2.2 ^ 2) := by ring
  rw [h, Real.sqrt_mul (sq_nonneg c), Real.sqrt_sq hc]

/-- The palm scale of a scaled frame. -/
theorem Features.palmScaleFrame_smul (c : ℝ) (hc : 0 ≤ c)
    (fr : List Features.Pt) :
    Features.palmScaleFrame (fr.map (Features.psmul c)) =
      c * Features.palmScaleFrame fr := by
  unfold Features.palmScaleFrame
  rw [Features.getD_map_psmul, Features.getD_map_psmul, Features.psub_psmul,
    Features.norm3_psmul c hc]

/-- The palm scales of a scaled window. -/
theorem Features.palmScales_smul (c : ℝ) (hc : 0 ≤ c)
    (w : List (List Features.Pt)) :
    Features.palmScales (Features.scaleSeq c w) =
      (Features.palmScales w).map fun s => c * s := by
  unfold Features.palmScales Features.scaleSeq
  simp [List.map_map, Function.comp_def, Features.centerFrame_smul,
    Features.palmScaleFrame_smul c hc]

/-- Dividing a scaled point by the scaled palm scale cancels the factor, also
through the clip. -/
theorem Features.clip_pdiv_smul (c : ℝ) (hc : c ≠ 0) (p : Features.Pt) (s : ℝ) :
    Features.clip3 (Features.pdiv (Features.psmul c p) (c * s)) =
      Features.clip3 (Features.pdiv p s) := by
  simp [Features.clip3, Features.pdiv, Features.psmul,
    mul_div_mul_left _ _ hc]

/-- A nonempty window has a nonempty palm-scale list. -/
theorem Features.palmScales_ne_nil (w : List (List Features.Pt)) (hw : w ≠ []) :
    Features.palmScales w ≠ [] := by
  simp [Features.palmScales, hw]

/-- Core of the C7 analysis: when every per-frame palm scale stays strictly
above `EPSILON` both before and after scaling by `c > 0`, normalization erases
the scaling entirely. -/
theorem Features.normalizeCore_smul (w : List (List Features.Pt)) (c : ℝ)
    (hc : 0 < c) (hw : w ≠ [])
    (hpre : ∀ x ∈ Features.palmScales w, Features.EPSILON < x)
    (hpost : ∀ x ∈ Features.palmScales w, Features.EPSILON < c * x) :
    Features.normalizeCore (Features.scaleSeq c w) = Features.normalizeCore w := by
  have hc0 : (0:ℝ) ≤ c := le_of_lt hc
  have hcne : c ≠ 0 := ne_of_gt hc
  obtain ⟨x0, hx0⟩ := List.exists_mem_of_ne_nil _ (Features.palmScales_ne_nil w hw)
  have hscales : ((Features.scaleSeq c w).map Features.centerFrame).map
      Features.palmScaleFrame = (Features.palmScales w).map (fun s => c * s) := by
    have h := Features.palmScales_smul c hc0 w
    simpa [Features.palmScales] using h
  have hcent : (Features.scaleSeq c w).map Features.centerFrame =
      (w.map Features.centerFrame).map (List.map (Features.psmul c)) := by
    simp [Features.scaleSeq, List.map_map, Function.comp_def,
      Features.centerFrame_smul]
  have hne_scaled : ¬ ∀ x ∈ (Features.palmScales w).map (fun s => c * s),
      x < Features.EPSILON := by
    intro hall
    exact absurd (hall (c * x0) (List.mem_map_of_mem _ hx0))
      (not_lt.mpr (le_of_lt (hpost x0 hx0)))
  have hne_orig : ¬ ∀ x ∈ Features.palmScales w, x < Features.EPSILON := by
    intro hall
    exact absurd (hall x0 hx0) (not_lt.mpr (le_of_lt (hpre x0 hx0)))
  have hid_scaled : ∀ ref, ((Features.palmScales w).map (fun s => c * s)).map
      (fun s => if Features.EPSILON < s then s else ref) =
        (Features.palmScales w).map (fun s => c * s) := by
    intro ref
    rw [List.map_map]
    apply List.map_congr_left
    intro s hs
    simp [if_pos (hpost s hs)]
  have hid_orig : ∀ ref, (Features.palmScales w).map
      (fun s => if Features.EPSILON < s then s else ref) = Features.palmScales w := by
    intro ref
    have : (Features.palmScales w).map
        (fun s => if Features.EPSILON < s then s else ref) =
          (Features.palmScales w).map id := by
      apply List.map_congr_left
      intro s hs
      simp [if_pos (hpre s hs)]
    simpa using this
  simp only [Features.normalizeCore]
  rw [hscales]
  have hscales_orig : (w.map Features.centerFrame).map Features.palmScaleFrame =
      Features.palmScales w := rfl
  rw [hscales_orig, if_neg hne_scaled, if_neg hne_orig, hid_scaled, hid_orig,
    hcent]
  rw [List.zip_map, List.map_map]
  apply List.map_congr_left
  intro pr _
  simp [Function.comp_def, List.map_map, Features.clip_pdiv_smul c hcne]

/-- Shape validation succeeds exactly on nonempty sequences of 21-point
frames. -/
theorem Features.to_numpy_eq_some (seq : List (List Features.Pt))
    (hne : seq ≠ []) (hv : ∀ fr ∈ seq, fr.length = 21) :
    Features.to_numpy_sequence seq = some seq := by
  cases seq with
  | nil => exact absurd rfl hne
  | cons a t =>
    simp only [Features.to_numpy_sequence]
    rw [if_pos hv]

/-- Shape validation fails when some frame is not 21 points. -/
theorem Features.to_numpy_eq_none (seq : List (List Features.Pt))
    (hv : ¬ ∀ fr ∈ seq, fr.length = 21) :
    Features.to_numpy_sequence seq = none := by
  cases seq with
  | nil => rfl
  | cons a t => simp_all [Features.to_numpy_sequence]

/-- C7 amended: scaling every input coordinate by `c > 0` leaves the feature
vector unchanged, provided every frame's palm scale stays strictly above
`EPSILON` both before (`hpre`) and after (`hpost`) the scaling — the palm-scale
division then cancels the factor exactly. -/
theorem C7_feature_scale_invariance_amended (w : List (List Features.Pt))
    (c : ℝ) (hc : 0 < c)
    (hpre : ∀ x ∈ Features.palmScales w, Features.EPSILON < x)
    (hpost : ∀ x ∈ Features.palmScales w, Features.EPSILON < c * x)
    (target : ℕ) :
    Features.sequence_to_feature_vector (Features.scaleSeq c w) target =
      Features.sequence_to_feature_vector w target := by
  rcases eq_or_ne w [] with rfl | hw
  · rfl
  · by_cases hv : ∀ fr ∈ w, fr.length = 21
    · have hw' : Features.scaleSeq c w ≠ [] := by
        simpa [Features.scaleSeq] using hw
      have hv' : ∀ fr ∈ Features.scaleSeq c w, fr.length = 21 := by
        intro fr hfr
        simp only [Features.scaleSeq, List.mem_map] at hfr
        obtain ⟨fr0, hfr0, rfl⟩ := hfr
        simp [hv fr0 hfr0]
      simp only [Features.sequence_to_feature_vector,
        Features.to_numpy_eq_some _ hw hv, Features.to_numpy_eq_some _ hw' hv']
      rw [Features.normalizeCore_smul w c hc hw hpre hpost]
    · have hv' : ¬ ∀ fr ∈ Features.scaleSeq c w, fr.length = 21 := by
        intro hall
        apply hv
        intro fr hfr
        have h21 := hall (fr.map (Features.psmul c))
          (List.mem_map_of_mem _ hfr)
        simpa using h21
      simp only [Features.sequence_to_feature_vector,
        Features.to_numpy_eq_none _ hv, Features.to_numpy_eq_none _ hv']

/-- A 21-point frame whose only nonzero entry is landmark 5 at `(a, 0, 0)`
(landmark 0, the wrist, is at the origin, so the palm scale is `|a|`). -/
noncomputable def Features.cexFrame (a : ℝ) : List Features.Pt :=
  [(0, 0, 0), (0, 0, 0), (0, 0, 0), (0, 0, 0), (0, 0, 0),
   (a, 0, 0), (0, 0, 0), (0, 0, 0), (0, 0, 0), (0, 0, 0),
   (0, 0, 0), (0, 0, 0), (0, 0, 0), (0, 0, 0), (0, 0, 0),
   (0, 0, 0), (0, 0, 0), (0, 0, 0), (0, 0, 0), (0, 0, 0),
   (0, 0, 0)]

/-- A 24-frame constant window of such frames. -/
noncomputable def Features.cexWindow (a : ℝ) : List (List Features.Pt) :=
  List.replicate 24 (Features.cexFrame a)

/-- Zipping equal-length replicates pairs the elements. -/
theorem Features.zip_replicate_same {α β : Type} (n : ℕ) (a : α) (b : β) :
    (List.replicate n a).zip (List.replicate n b) = List.replicate n (a, b) := by
  induction n with
  | zero => rfl
  | succ k ih => simp [List.replicate_succ, ih]

/-- Centering the witness frame is the identity (its wrist is the origin). -/
theorem Features.centerFrame_cex (a : ℝ) :
    Features.centerFrame (Features.cexFrame a) = Features.cexFrame a := by
  simp [Features.centerFrame, Features.cexFrame, Features.psub]

/-- The palm scale of the witness frame is `a` (for nonnegative `a`). -/
theorem Features.palmScaleFrame_cex (a : ℝ) (ha : 0 ≤ a) :
    Features.palmScaleFrame (Features.cexFrame a) = a := by
  simp only [Features.palmScaleFrame, Features.cexFrame, Features.psub,
    Features.norm3]
  norm_num
  exact Real.sqrt_sq ha

/-- The palm scales of the witness window. -/
theorem Features.palmScales_cex (a : ℝ) (ha : 0 ≤ a) :
    Features.palmScales (Features.cexWindow a) = List.replicate 24 a := by
  simp [Features.palmScales, Features.cexWindow, List.map_replicate,
    Features.centerFrame_cex, Features.palmScaleFrame_cex a ha]

/-- Scaling the witness window scales its parameter. -/
theorem Features.scaleSeq_cex (c a : ℝ) :
    Features.scaleSeq c (Features.cexWindow a) = Features.cexWindow (c * a) := by
  simp [Features.scaleSeq, Features.cexWindow, Features.cexFrame,
    List.map_replicate, Features.psmul]

/-- Normalizing the witness window with a healthy palm scale (`EPSILON < a`)
divides out `a`: landmark 5 becomes `(1, 0, 0)`. -/
theorem Features.normalizeCore_cex_big (a : ℝ) (ha : Features.EPSILON < a) :
    Features.normalizeCore (Features.cexWindow a) =
      List.replicate 24 (Features.cexFrame 1) := by
  have ha0 : 0 < a := lt_trans (by norm_num [Features.EPSILON]) ha
  have hscales : (Features.cexWindow a).map Features.centerFrame =
      List.replicate 24 (Features.cexFrame a) := by
    simp [Features.cexWindow, List.map_replicate, Features.centerFrame_cex]
  simp only [Features.normalizeCore, hscales, List.map_replicate,
    Features.palmScaleFrame_cex a (le_of_lt ha0)]
  rw [if_neg (by
    intro hall
    exact absurd (hall a (by simp [List.mem_replicate]))
      (not_lt.mpr (le_of_lt ha)))]
  simp only [List.map_replicate, ha, if_true]
  rw [Features.zip_replicate_same, List.map_replicate]
  have hframe : (Features.cexFrame a).map
      (fun p => Features.clip3 (Features.pdiv p a)) = Features.cexFrame 1 := by
    simp only [Features.cexFrame, List.map_cons, List.map_nil,
      Features.pdiv, Features.clip3, Features.clipR]
    norm_num [div_self (ne_of_gt ha0)]
  rw [hframe]

/-- Normalizing the witness window with a collapsed palm scale
(`0 ≤ b < EPSILON`, every frame) keeps the coordinates (division by the
all-ones fallback): landmark 5 stays `(b, 0, 0)`. -/
theorem Features.normalizeCore_cex_small (b : ℝ) (hb0 : 0 ≤ b)
    (hb : b < Features.EPSILON) :
    Features.normalizeCore (Features.cexWindow b) =
      List.replicate 24 (Features.cexFrame b) := by
  have hscales : (Features.cexWindow b).map Features.centerFrame =
      List.replicate 24 (Features.cexFrame b) := by
    simp [Features.cexWindow, List.map_replicate, Features.centerFrame_cex]
  simp only [Features.normalizeCore, hscales, List.map_replicate,
    Features.palmScaleFrame_cex b hb0]
  rw [if_pos (by
    intro x hx
    rw [List.eq_of_mem_replicate hx]
    exact hb)]
  rw [Features.zip_replicate_same, List.map_replicate]
  have hb3 : b ≤ 3 := le_trans (le_of_lt hb) (by norm_num [Features.EPSILON])
  have hframe : (Features.cexFrame b).map
      (fun p => Features.clip3 (Features.pdiv p 1)) = Features.cexFrame b := by
    simp only [Features.cexFrame, List.map_cons, List.map_nil,
      Features.pdiv, Features.clip3, Features.clipR]
    norm_num
    rw [max_eq_right (by linarith : (-3:ℝ) ≤ b), min_eq_right hb3]
  rw [hframe]

set_option maxRecDepth 4000 in
/-- The feature vector of a witness window whose normalization is a constant
window of `cexFrame v` carries `v` at flat index 15 (frame 0, landmark 5,
coordinate x). -/
theorem Features.fv_cex_getD (a v : ℝ)
    (h : Features.normalizeCore (Features.cexWindow a) =
      List.replicate 24 (Features.cexFrame v)) :
    (Features.sequence_to_feature_vector (Features.cexWindow a) 24).map
      (fun l => l.getD 15 0) = some v := by
  have hne : Features.cexWindow a ≠ [] := by simp [Features.cexWindow]
  have hv : ∀ fr ∈ Features.cexWindow a, fr.length = 21 := by
    intro fr hfr
    rw [List.eq_of_mem_replicate hfr]
    simp [Features.cexFrame]
  have hres : Features.resample_sequence
      (List.replicate 24 (Features.cexFrame v)) 24 =
        some (List.replicate 24 (Features.cexFrame v)) := by
    simp [Features.resample_sequence]
  simp only [Features.sequence_to_feature_vector,
    Features.to_numpy_eq_some _ hne hv, h, hres, Option.map_some]
  have hrep : List.replicate 24 (Features.cexFrame v) =
      Features.cexFrame v :: List.replicate 23 (Features.cexFrame v) := rfl
  rw [hrep]
  simp only [Features.flattenSeq, List.flatMap_cons, Option.map_some']
  have hlen : 15 < (Features.flattenFrame (Features.cexFrame v)).length := by
    simp [Features.flattenFrame, Features.cexFrame]
  have h15 : (Features.flattenFrame (Features.cexFrame v)).getD 15 0 = v := by
    simp [Features.flattenFrame, Features.cexFrame]
  rw [List.append_assoc, List.append_assoc, List.getD_append _ _ _ _ hlen, h15]

/-- C7 counterexample: for the 24-frame window with palm scale `2e-6` and the
factor `c = 1/4`, the scaled window's palm scales all fall below `EPSILON`, the
per-frame division switches to the all-ones fallback, and the feature vectors
differ materially (flat index 15 is `1` for the original but `5e-7` for the
scaled input), refuting the unconditional invariance claim. -/
theorem C7_counterexample :
    (0 : ℝ) < 1/4 ∧
    Features.sequence_to_feature_vector
        (Features.scaleSeq (1/4) (Features.cexWindow (2/1000000))) 24 ≠
      Features.sequence_to_feature_vector (Features.cexWindow (2/1000000)) 24 := by
  refine ⟨by norm_num, ?_⟩
  intro h
  rw [Features.scaleSeq_cex,
    show (1/4 : ℝ) * (2/1000000) = 1/2000000 by norm_num] at h
  have g1 := Features.fv_cex_getD (2/1000000) 1
    (Features.normalizeCore_cex_big (2/1000000) (by norm_num [Features.EPSILON]))
  have g2 := Features.fv_cex_getD (1/2000000) (1/2000000)
    (Features.normalizeCore_cex_small (1/2000000) (by norm_num)
      (by norm_num [Features.EPSILON]))
  rw [h] at g2
  rw [g1] at g2
  have h12 : (1 : ℝ) = 1/2000000 := Option.some.inj g2
  norm_num at h12

/-- Witness for the amended C7 at the healthy window (`a = 1`) and `c = 2`. -/
theorem C7_feature_scale_invariance_amended_witness :
    (0 : ℝ) < 2 ∧
    (∀ x ∈ Features.palmScales (Features.cexWindow 1), Features.EPSILON < x) ∧
    (∀ x ∈ Features.palmScales (Features.cexWindow 1), Features.EPSILON < 2 * x) ∧
    Features.sequence_to_feature_vector
        (Features.scaleSeq 2 (Features.cexWindow 1)) 24 =
      Features.sequence_to_feature_vector (Features.cexWindow 1) 24 := by
  have hpre : ∀ x ∈ Features.palmScales (Features.cexWindow 1),
      Features.EPSILON < x := by
    rw [Features.palmScales_cex 1 zero_le_one]
    intro x hx
    rw [List.eq_of_mem_replicate hx]
    norm_num [Features.EPSILON]
  have hpost : ∀ x ∈ Features.palmScales (Features.cexWindow 1),
      Features.EPSILON < 2 * x := by
    rw [Features.palmScales_cex 1 zero_le_one]
    intro x hx
    rw [List.eq_of_mem_replicate hx]
    norm_num [Features.EPSILON]
  exact ⟨by norm_num, hpre, hpost,
    C7_feature_scale_invariance_amended (Features.cexWindow 1) 2 (by norm_num)
      hpre hpost 24⟩

/-- The planar distance of a point to itself is zero. -/
theorem Movement.planarDist_self (a : Movement.Pt) : Movement.planarDist a a = 0 := by
  simp [Movement.planarDist]

/-- Summing the planar distances along a self-zipped frame gives zero. -/
theorem Movement.zip_self_planar_sum (f : List Movement.Pt) :
    ((f.zip f).map fun pr => Movement.planarDist pr.1 pr.2).sum = 0 := by
  induction f with
  | nil => simp
  | cons a t ih => simp [List.zip_cons_cons, Movement.planarDist_self, ih]

/-- A frame moved against itself has zero instantaneous movement. -/
theorem Movement.instantMovement_self (f : List Movement.Pt) :
    Movement.instantMovement (some f) f = 0 := by
  simp [Movement.instantMovement, Movement.meanPlanarDisp,
    Movement.zip_self_planar_sum]

/-- With zero smoothed movement and the default thresholds, classification
reduces to the frame-count hysteresis alone. -/
theorem Movement.classify_zero (n : ℕ) :
    Movement.classify_state {} 0 n =
      (if 14 ≤ n then "idle" else if 7 ≤ n then "stable" else "moving") := by
  unfold Movement.classify_state
  norm_num

/-- Invariant of the constant-frame run from a fresh default tracker: the
smoothed movement stays zero, the stable counter counts the frames, the frame
is retained, the config is the default, and the snapshot state is the
classification at those values. -/
theorem Movement.runConst_inv (f : List Movement.Pt) (hf : ¬ f.length < 21) :
    ∀ k, (Movement.runConst f k).2.smoothed_movement = 0 ∧
      (Movement.runConst f k).2.stable_frames = k + 1 ∧
      (Movement.runConst f k).2.prev_landmarks = some f ∧
      (Movement.runConst f k).2.config = {} ∧
      (Movement.runConst f k).1.state = Movement.classify_state {} 0 (k + 1) := by
  intro k
  induction k with
  | zero =>
    norm_num [Movement.runConst, Movement.update, hf, Movement.presentStep,
      Movement.instantMovement]
  | succ k ih =>
    obtain ⟨h1, h2, h3, h4, _⟩ := ih
    norm_num [Movement.runConst, Movement.update, hf, Movement.presentStep,
      h1, h2, h3, h4, Movement.instantMovement_self]

/-- C9: every snapshot `update` produces satisfies the invariant
`has_hand = false → state = no_hand`. -/
theorem C9_has_hand_invariant (t : Movement.MovementTracker)
    (lm : Option (List Movement.Pt))
    (h : (Movement.update t lm).1.has_hand = false) :
    (Movement.update t lm).1.state = "no_hand" := by
  cases lm with
  | none => rfl
  | some l =>
    by_cases hl : l.length < 21
    · simp [Movement.update, hl, Movement.absentStep]
    · exfalso
      simp [Movement.update, hl, Movement.presentStep] at h

/-- Witness for C9 on a fresh tracker fed an absent frame. -/
theorem C9_has_hand_invariant_witness :
    (Movement.update {} none).1.has_hand = false ∧
    (Movement.update {} none).1.state = "no_hand" :=
  ⟨rfl, C9_has_hand_invariant {} none rfl⟩

/-- C5: on any absent input (`None` or fewer than 21 points), `update` halves
the smoothed velocity — hence strictly decreases it whenever it is positive and
fixes it at zero — resets the stable-frame counter, and reports state
`no_hand` immediately. -/
theorem C5_no_hand_decay (t : Movement.MovementTracker)
    (lm : Option (List Movement.Pt)) (h : Movement.absentInput lm) :
    (Movement.update t lm).2.smoothed_movement = t.smoothed_movement * (1/2) ∧
    (0 < t.smoothed_movement →
      (Movement.update t lm).2.smoothed_movement < t.smoothed_movement) ∧
    (t.smoothed_movement = 0 → (Movement.update t lm).2.smoothed_movement = 0) ∧
    (Movement.update t lm).2.stable_frames = 0 ∧
    (Movement.update t lm).1.state = "no_hand" ∧
    (Movement.update t lm).1.has_hand = false := by
  have habs : Movement.update t lm = Movement.absentStep t := by
    cases lm with
    | none => rfl
    | some l =>
      have h' : l.length < 21 := h
      simp [Movement.update, h']
  rw [habs]
  refine ⟨rfl, ?_, ?_, rfl, rfl, rfl⟩
  · intro hpos
    show t.smoothed_movement * (1/2) < t.smoothed_movement
    linarith
  · intro h0
    show t.smoothed_movement * (1/2) = 0
    rw [h0]
    ring

/-- Witness for C5 on a tracker with smoothed velocity 1 fed `None`. -/
theorem C5_no_hand_decay_witness :
    Movement.absentInput (none : Option (List Movement.Pt)) ∧
    (Movement.update { smoothed_movement := 1 } none).2.smoothed_movement
        < ({ smoothed_movement := 1 } : Movement.MovementTracker).smoothed_movement ∧
    (Movement.update { smoothed_movement := 1 } none).1.state = "no_hand" :=
  ⟨trivial,
   (C5_no_hand_decay { smoothed_movement := 1 } none trivial).2.1 (by simp),
   (C5_no_hand_decay { smoothed_movement := 1 } none trivial).2.2.2.2.1⟩

/-- C6: feeding a constant 21-point frame N times to a fresh tracker ends in
state `idle` when N ≥ 14 (the idle-frame requirement) and in state `stable`
when 7 ≤ N < 14 (between the stable and idle requirements). -/
theorem C6_motion_hysteresis (f : List Movement.Pt) (hf : 21 ≤ f.length)
    (N : ℕ) :
    (14 ≤ N → (Movement.runConst f (N - 1)).1.state = "idle") ∧
    (7 ≤ N ∧ N < 14 → (Movement.runConst f (N - 1)).1.state = "stable") := by
  have hf' : ¬ f.length < 21 := by omega
  constructor
  · intro h14
    have hinv := Movement.runConst_inv f hf' (N - 1)
    have hN : N - 1 + 1 = N := by omega
    rw [hinv.2.2.2.2, hN, Movement.classify_zero, if_pos h14]
  · rintro ⟨h7, h14⟩
    have hinv := Movement.runConst_inv f hf' (N - 1)
    have hN : N - 1 + 1 = N := by omega
    rw [hinv.2.2.2.2, hN, Movement.classify_zero, if_neg (by omega), if_pos h7]

/-- Witness for C6 at the constant zero frame with N = 14 and N = 8. -/
theorem C6_motion_hysteresis_witness :
    21 ≤ (List.replicate 21 (((0:ℝ), 0, 0) : Movement.Pt)).length ∧
    (Movement.runConst (List.replicate 21 (((0:ℝ), 0, 0) : Movement.Pt)) 13).1.state
      = "idle" ∧
    (Movement.runConst (List.replicate 21 (((0:ℝ), 0, 0) : Movement.Pt)) 7).1.state
      = "stable" :=
  ⟨by simp,
   (C6_motion_hysteresis (List.replicate 21 ((0, 0, 0) : Movement.Pt))
      (by simp) 14).1 (by norm_num),
   (C6_motion_hysteresis (List.replicate 21 ((0, 0, 0) : Movement.Pt))
      (by simp) 8).2 ⟨by norm_num, by norm_num⟩⟩

/-- How `GestureController.update` behaves on a qualifying open-palm frame in
motion state `stable` with the default minimum confidence: the candidate
counter advances (or restarts at 1) and confirmation fires exactly when the
counter reaches the hold requirement with no cooldown left. -/
theorem Gesture.update_open_palm (l : List Gesture.Landmark)
    (hl' : ¬ l.length < 21)
    (hd : Gesture.detect_control_gesture l none = ("open_palm", 92/100))
    (hf cf : ℕ) (a : String) (n r : ℕ) :
    Gesture.update ⟨hf, cf, 78/100, a, n, r⟩ (some l) "stable" none =
      (let n2 := if "open_palm" = a then n + 1 else 1
       if n2 ≥ hf ∧ r - 1 = 0 then
         ({ gesture := "open_palm", confidence := 92/100, confirmed := true,
            action := "toggle_pause" },
          ⟨hf, cf, 78/100, "none", 0, cf⟩)
       else ({ gesture := "open_palm", confidence := 92/100 },
          ⟨hf, cf, 78/100, "open_palm", n2, r - 1⟩)) := by
  have h1 : ¬ ((92:ℚ)/100 < 78/100) := by norm_num
  cases r with
  | zero =>
    simp [Gesture.update, hd, hl', Gesture.gesture_to_action,
      Gesture.reset_candidate, h1]
    by_cases ha : "open_palm" = a <;> simp [ha]
  | succ k =>
    simp [Gesture.update, hd, hl', Gesture.gesture_to_action,
      Gesture.reset_candidate, h1]
    by_cases ha : "open_palm" = a <;> simp [ha]

/-- C3: holding an open-palm pose for exactly the default 6 hold frames in
motion state `stable` confirms exactly once, with action `toggle_pause`, on the
6th frame; holding it for only 5 frames never confirms. -/
theorem C3_gesture_debounce (l : List Gesture.Landmark)
    (hl : 21 ≤ l.length)
    (hd : Gesture.detect_control_gesture l none = ("open_palm", 92/100)) :
    (Gesture.feedPoseN l "stable" 6 {}).map (fun e => (e.confirmed, e.action)) =
      [(false, "none"), (false, "none"), (false, "none"), (false, "none"),
       (false, "none"), (true, "toggle_pause")] ∧
    (Gesture.feedPoseN l "stable" 5 {}).map (fun e => (e.confirmed, e.action)) =
      List.replicate 5 (false, "none") := by
  have hl' : ¬ (l.length < 21) := by omega
  constructor <;>
    simp [Gesture.feedPoseN, Gesture.update_open_palm l hl' hd, List.replicate]

/-- The concrete pose is recognized as an open palm with confidence 0.92. -/
theorem Gesture.openPalmPose_detect :
    Gesture.detect_control_gesture Gesture.openPalmPose none = ("open_palm", 92/100) := by
  norm_num [Gesture.detect_control_gesture, Gesture.get_finger_state,
    Gesture.is_finger_extended, Gesture.is_thumb_extended, Gesture.pt,
    Gesture.openPalmPose, Gesture.is_open_palm, Gesture.is_fist,
    Gesture.is_two_fingers, Gesture.extendedCount, Gesture.lx, Gesture.ly,
    List.getD]

/-- The concrete pose has the full 21 landmarks. -/
theorem Gesture.openPalmPose_length : 21 ≤ Gesture.openPalmPose.length := by
  decide

/-- Witness for C3 at the concrete open-palm pose. -/
theorem C3_gesture_debounce_witness :
    21 ≤ Gesture.openPalmPose.length ∧
    Gesture.detect_control_gesture Gesture.openPalmPose none = ("open_palm", 92/100) ∧
    (Gesture.feedPoseN Gesture.openPalmPose "stable" 6 {}).map
        (fun e => (e.confirmed, e.action)) =
      [(false, "none"), (false, "none"), (false, "none"), (false, "none"),
       (false, "none"), (true, "toggle_pause")] :=
  ⟨Gesture.openPalmPose_length, Gesture.openPalmPose_detect,
   (C3_gesture_debounce Gesture.openPalmPose Gesture.openPalmPose_length
      Gesture.openPalmPose_detect).1⟩

/-- C4: feeding the qualifying pose continuously from a fresh controller, the
first confirmation fires on frame 6; the following 19 = cooldown_frames - 1
frames never confirm again, and the 20th frame after the confirmation
(frame 26) confirms anew. -/
theorem C4_cooldown_enforcement (l : List Gesture.Landmark)
    (hl : 21 ≤ l.length)
    (hd : Gesture.detect_control_gesture l none = ("open_palm", 92/100)) :
    (Gesture.feedPoseN l "stable" 26 {}).map (fun e => e.confirmed) =
      List.replicate 5 false ++ [true] ++ List.replicate 19 false ++ [true] := by
  have hl' : ¬ (l.length < 21) := by omega
  simp [Gesture.feedPoseN, Gesture.update_open_palm l hl' hd, List.replicate]

/-- Witness for C4 at the concrete open-palm pose. -/
theorem C4_cooldown_enforcement_witness :
    21 ≤ Gesture.openPalmPose.length ∧
    (Gesture.feedPoseN Gesture.openPalmPose "stable" 26 {}).map
        (fun e => e.confirmed) =
      List.replicate 5 false ++ [true] ++ List.replicate 19 false ++ [true] :=
  ⟨Gesture.openPalmPose_length,
   C4_cooldown_enforcement Gesture.openPalmPose Gesture.openPalmPose_length
     Gesture.openPalmPose_detect⟩

/-- C2: feeding ['H','I','space','T','H','E','R','E'] into a fresh text
generator and confirming by fist yields the sentence "HI THERE", after which
`current_word` is empty and `confirmed_words` is the empty list. -/
theorem C2_text_assembly_scenario :
    (Text.confirm_sentence_by_fist
        (Text.addLetters {} Text.scenarioSymbols 0) 0).1 = some "HI THERE" ∧
    (Text.confirm_sentence_by_fist
        (Text.addLetters {} Text.scenarioSymbols 0) 0).2.state.current_word = "" ∧
    (Text.confirm_sentence_by_fist
        (Text.addLetters {} Text.scenarioSymbols 0) 0).2.state.confirmed_words = [] := by
  decide

/-- C8: whenever a confirmation emits a sentence, an immediately following
confirmation (no intervening symbols) returns `none`: the generator's state was
reset, and the suppression is an ordinary `none` result, not an error. -/
theorem C8_duplicate_suppression (g : Text.TextGenerator) (s : String)
    (now now2 : ℚ) (h : (Text.confirm_sentence g now).1 = some s) :
    (Text.confirm_sentence (Text.confirm_sentence g now).2 now2).1 = none := by
  have hstate : (Text.confirm_sentence g now).2.state.current_word = "" ∧
      (Text.confirm_sentence g now).2.state.confirmed_words = [] := by
    simp only [Text.confirm_sentence] at h ⊢
    split_ifs at h ⊢ <;> simp_all
  generalize hg2 : (Text.confirm_sentence g now).2 = g2 at hstate
  simp only [Text.confirm_sentence, hstate.1, hstate.2]
  simp [hstate.2]

/-- Witness for C8 at the concrete scenario generator. -/
theorem C8_duplicate_suppression_witness :
    (Text.confirm_sentence (Text.addLetters {} Text.scenarioSymbols 0) 0).1
      = some "HI THERE" ∧
    (Text.confirm_sentence
        (Text.confirm_sentence (Text.addLetters {} Text.scenarioSymbols 0) 0).2 1).1
      = none :=
  ⟨by decide,
   C8_duplicate_suppression (Text.addLetters {} Text.scenarioSymbols 0)
     "HI THERE" 0 1 (by decide)⟩

/-- C10: the `TextState` dataclass declares `confirmed_words: List[str] = []`;
CPython's `@dataclass` rejects this mutable default with a `ValueError` at
class-definition time, so `TextGenerator()` can never be constructed. -/
theorem C10_textstate_mutable_default :
    PyData.dataclassRaisesValueError PyData.textStateFields = true := by
  decide
